import Mathlib

/-!
Shallow embedding of the Social Interaction Engine of the codecircle
repository: the Like / Follow / Comment route handlers and their state.

JavaScript strings are modelled as `List Char`; MongoDB collections as
Lean lists of records; `findById` as `List.find?` on the id field;
`findByIdAndUpdate` / `updateMany` as `List.map` over the collection;
`$inc` counters as `Int` (they may go negative); timestamps as `Nat`.
Each route handler becomes a function from the engine state and its
request parameters to the new state paired with an `Except` result,
following the source control flow line by line.
-/

namespace CodeCircle

/-- JS `string` as a list of chars. -/
abbrev Content := List Char

/-- JS `String.prototype.trim`: strip leading and trailing whitespace. -/
def trimChars (s : Content) : Content :=
  ((s.dropWhile Char.isWhitespace).reverse.dropWhile Char.isWhitespace).reverse

/-- The tombstone text written by the DELETE handler. -/
def tombstone : Content :=
  ['[', 'C', 'o', 'm', 'm', 'e', 'n', 't', ' ', 'd', 'e', 'l', 'e', 't', 'e', 'd', ']']

/-- `targetType` discriminator of a Like row. -/
inductive TargetType where
  | project
  | comment
  deriving Repr, DecidableEq

/-- `user.role` as used by the DELETE handler's admin check. -/
inductive Role where
  | admin
  | member
  deriving Repr, DecidableEq

/-- A `User` document: identity, role and the denormalized follow counters. -/
structure UserRec where
  id : Nat
  role : Role
  statsFollowers : Int
  statsFollowing : Int
  deriving Repr, DecidableEq

/-- A `Project` document: identity, owner and the stored likes counter. -/
structure ProjectRec where
  id : Nat
  authorId : Nat
  statsLikes : Int
  deriving Repr, DecidableEq

/-- A `Comment` document, with the fields of the mongoose CommentSchema
that the engine reads or writes. -/
structure CommentRec where
  id : Nat
  content : Content
  authorId : Nat
  projectId : Nat
  parentCommentId : Option Nat
  depth : Nat
  statsLikes : Int
  statsReplies : Int
  isEdited : Bool
  isActive : Bool
  createdAt : Nat
  updatedAt : Nat
  deriving Repr, DecidableEq

/-- A `Like` row; the collection has a unique index on this whole triple. -/
structure LikeRec where
  userId : Nat
  targetId : Nat
  targetType : TargetType
  deriving Repr, DecidableEq

/-- A `Follow` row; unique per ordered `(followerId, followingId)` pair. -/
structure FollowRec where
  followerId : Nat
  followingId : Nat
  deriving Repr, DecidableEq

/-- The persistent state the engine's handlers read and mutate. -/
structure EngineState where
  users : List UserRec
  projects : List ProjectRec
  comments : List CommentRec
  likes : List LikeRec
  follows : List FollowRec
  deriving Repr, DecidableEq

/-- `User.findOne` by the session identity (modelled as the actor id). -/
def getUser (st : EngineState) (id : Nat) : Option UserRec :=
  st.users.find? (fun u => u.id == id)

/-- `Project.findById`. -/
def getProject (st : EngineState) (id : Nat) : Option ProjectRec :=
  st.projects.find? (fun p => p.id == id)

/-- `Comment.findById`. -/
def getComment (st : EngineState) (id : Nat) : Option CommentRec :=
  st.comments.find? (fun c => c.id == id)

/-- The error taxonomy surfaced by the handlers (non-2xx responses). -/
inductive ApiError where
  | userNotFound
  | projectNotFound
  | commentNotFound
  | parentNotFound
  | parentWrongProject
  | depthExceeded
  | validationFailed
  | forbidden
  | selfFollow
  deriving Repr, DecidableEq

namespace ProjectLikeRoute

/-- POST `/api/projects/[id]/like` — toggle a like on a project.
Looks up the user and the project, then branches on an existing Like
row: delete it (unlike) or insert a fresh one (like).  No stored
counter on the project is touched in either branch. -/
def POST (st : EngineState) (actorId projectId : Nat) :
    EngineState × Except ApiError Bool :=
  match getUser st actorId with
  | none => (st, .error .userNotFound)
  | some user =>
    match getProject st projectId with
    | none => (st, .error .projectNotFound)
    | some _ =>
      match st.likes.find? (fun l =>
          l.userId == user.id && l.targetId == projectId && l.targetType == .project) with
      | some existingLike =>
        ({ st with likes := st.likes.erase existingLike }, .ok false)
      | none =>
        let newLike : LikeRec :=
          { userId := user.id, targetId := projectId, targetType := .project }
        ({ st with likes := st.likes ++ [newLike] }, .ok true)

end ProjectLikeRoute

namespace CommentLikeRoute

/-- POST `/api/projects/[id]/comments/[commentId]/like` — toggle a like
on a comment.  Same toggle shape as the project like, but here the
comment's stored `stats.likes` is `$inc`-ed by ∓1 alongside the row
delete/insert, and the response reports the re-fetched counter. -/
def POST (st : EngineState) (actorId commentId : Nat) :
    EngineState × Except ApiError (Bool × Int) :=
  match getUser st actorId with
  | none => (st, .error .userNotFound)
  | some user =>
    match getComment st commentId with
    | none => (st, .error .commentNotFound)
    | some _ =>
      match st.likes.find? (fun l =>
          l.userId == user.id && l.targetId == commentId && l.targetType == .comment) with
      | some existingLike =>
        let st' : EngineState :=
          { st with likes := st.likes.erase existingLike,
                    comments := st.comments.map (fun c =>
                      if c.id == commentId then
                        { c with statsLikes := c.statsLikes - 1 } else c) }
        (st', .ok (false, ((getComment st' commentId).map (·.statsLikes)).getD 0))
      | none =>
        let newLike : LikeRec :=
          { userId := user.id, targetId := commentId, targetType := .comment }
        let st' : EngineState :=
          { st with likes := st.likes ++ [newLike],
                    comments := st.comments.map (fun c =>
                      if c.id == commentId then
                        { c with statsLikes := c.statsLikes + 1 } else c) }
        (st', .ok (true, ((getComment st' commentId).map (·.statsLikes)).getD 0))

end CommentLikeRoute

namespace FollowRoute

/-- POST `/api/user/[userId]/follow` — toggle follow.  Order of checks,
as in the source: current user, target user existence, self-follow
rejection, then the Follow row branch.  Both denormalized counters
(actor `stats.following`, target `stats.followers`) are updated in the
same branch. -/
def POST (st : EngineState) (actorId targetUserId : Nat) :
    EngineState × Except ApiError Bool :=
  match getUser st actorId with
  | none => (st, .error .userNotFound)
  | some currentUser =>
    match getUser st targetUserId with
    | none => (st, .error .userNotFound)
    | some _ =>
      if currentUser.id == targetUserId then
        (st, .error .selfFollow)
      else
        match st.follows.find? (fun f =>
            f.followerId == currentUser.id && f.followingId == targetUserId) with
        | some existingFollow =>
          let users' := (st.users.map (fun u =>
              if u.id == currentUser.id then
                { u with statsFollowing := u.statsFollowing - 1 } else u)).map (fun u =>
              if u.id == targetUserId then
                { u with statsFollowers := u.statsFollowers - 1 } else u)
          ({ st with follows := st.follows.erase existingFollow, users := users' },
           .ok false)
        | none =>
          let users' := (st.users.map (fun u =>
              if u.id == currentUser.id then
                { u with statsFollowing := u.statsFollowing + 1 } else u)).map (fun u =>
              if u.id == targetUserId then
                { u with statsFollowers := u.statsFollowers + 1 } else u)
          let newFollow : FollowRec :=
            { followerId := currentUser.id, followingId := targetUserId }
          ({ st with follows := st.follows ++ [newFollow], users := users' },
           .ok true)

end FollowRoute

namespace ProjectIdRoute

/-- GET `/api/projects/[id]` — the stats block of the response: the
likes count is recomputed from the Like rows and the comments count
from the Comment rows (no `isActive` filter), never read from the
stored project counter.  The project must exist and belong to the
caller. -/
def GETstats (st : EngineState) (actorId projectId : Nat) :
    Except ApiError (Nat × Nat) :=
  match getUser st actorId with
  | none => .error .userNotFound
  | some user =>
    match st.projects.find? (fun p => p.id == projectId && p.authorId == user.id) with
    | none => .error .projectNotFound
    | some _ =>
      .ok ((st.likes.filter (fun l =>
              l.targetId == projectId && l.targetType == .project)).length,
           (st.comments.filter (fun c => c.projectId == projectId)).length)

end ProjectIdRoute

/-- `sortBy` query parameter of the comment listing. -/
inductive SortBy where
  | createdAt
  | likes
  deriving Repr, DecidableEq

/-- `sortOrder` query parameter of the comment listing. -/
inductive SortOrder where
  | asc
  | desc
  deriving Repr, DecidableEq

/-- One element of the comment listing response: the projected fields of
a top-level comment, with the read-time `repliesCount` substituted into
`stats.replies`. -/
structure CommentEntry where
  id : Nat
  content : Content
  createdAt : Nat
  updatedAt : Nat
  statsLikes : Int
  statsReplies : Nat
  deriving Repr, DecidableEq

/-- Insert into a sorted list, keeping `a` after every element that must
come before it. -/
def insertSorted (lt : α → α → Bool) (a : α) : List α → List α
  | [] => [a]
  | b :: bs => if lt b a then b :: insertSorted lt a bs else a :: b :: bs

/-- Insertion sort implementing the `$sort` stage. -/
def sortList (lt : α → α → Bool) : List α → List α
  | [] => []
  | a :: as => insertSorted lt a (sortList lt as)

/-- The sort key of the `$sort` stage: `stats.likes` when `sortBy=likes`,
otherwise `createdAt`. -/
def entryKey (sortBy : SortBy) (e : CommentEntry) : Int :=
  match sortBy with
  | .likes => e.statsLikes
  | .createdAt => (e.createdAt : Int)

/-- Strict comes-before relation of the `$sort` stage. -/
def entryLt (sortBy : SortBy) (sortOrder : SortOrder) (a b : CommentEntry) : Bool :=
  match sortOrder with
  | .asc => entryKey sortBy a < entryKey sortBy b
  | .desc => entryKey sortBy b < entryKey sortBy a

/-- All direct children of a comment, active or not (the `$lookup` on
`parentCommentId` in the listing pipeline has no `isActive` filter). -/
def repliesOf (st : EngineState) (cid : Nat) : List CommentRec :=
  st.comments.filter (fun r => r.parentCommentId == some cid)

namespace CommentsRoute

/-- GET `/api/projects/[id]/comments` — list top-level comments of a
project.  Matches active top-level comments, joins every direct child
into `repliesCount`, projects, sorts, then pages with skip/limit. -/
def GET (st : EngineState) (projectId page limit : Nat)
    (sortBy : SortBy) (sortOrder : SortOrder) :
    Except ApiError (List CommentEntry) :=
  match getProject st projectId with
  | none => .error .projectNotFound
  | some _ =>
    let matched := st.comments.filter (fun c =>
      c.projectId == projectId && c.parentCommentId == none && c.isActive)
    let entries := matched.map (fun c =>
      { id := c.id, content := c.content, createdAt := c.createdAt,
        updatedAt := c.updatedAt, statsLikes := c.statsLikes,
        statsReplies := (repliesOf st c.id).length : CommentEntry })
    .ok (((sortList (entryLt sortBy sortOrder) entries).drop ((page - 1) * limit)).take limit)

/-- The `new Comment(...)` + `save()` + parent `stats.replies` `$inc`
tail of the create handler, shared by the reply and top-level paths. -/
def saveComment (st : EngineState) (authorId projectId : Nat) (content : Content)
    (parentCommentId : Option Nat) (depth newId now : Nat) :
    EngineState × CommentRec :=
  let newComment : CommentRec :=
    { id := newId, content := trimChars content, authorId := authorId,
      projectId := projectId, parentCommentId := parentCommentId, depth := depth,
      statsLikes := 0, statsReplies := 0, isEdited := false, isActive := true,
      createdAt := now, updatedAt := now }
  let st' := { st with comments := st.comments ++ [newComment] }
  match parentCommentId with
  | some pid =>
    ({ st' with comments := st'.comments.map (fun c =>
        if c.id == pid then { c with statsReplies := c.statsReplies + 1 } else c) },
     newComment)
  | none => (st', newComment)

/-- POST `/api/projects/[id]/comments` — create a comment or reply.
Control flow of the source: user, project, content emptiness after
trim, raw length bound 2000, then (for replies) parent existence, same
project, and `depth = parent.depth + 1 > 5` rejection; finally save and
`$inc` the parent's `stats.replies`. -/
def POST (st : EngineState) (actorId projectId : Nat) (content : Content)
    (parentCommentId : Option Nat) (newId now : Nat) :
    EngineState × Except ApiError CommentRec :=
  match getUser st actorId with
  | none => (st, .error .userNotFound)
  | some user =>
    match getProject st projectId with
    | none => (st, .error .projectNotFound)
    | some _ =>
      if (trimChars content).length == 0 then (st, .error .validationFailed)
      else if 2000 < content.length then (st, .error .validationFailed)
      else
        match parentCommentId with
        | none =>
          let (st', created) := saveComment st user.id projectId content none 0 newId now
          (st', .ok created)
        | some pid =>
          match getComment st pid with
          | none => (st, .error .parentNotFound)
          | some parentComment =>
            if parentComment.projectId != projectId then
              (st, .error .parentWrongProject)
            else
              let depth := parentComment.depth + 1
              if 5 < depth then (st, .error .depthExceeded)
              else
                let (st', created) :=
                  saveComment st user.id projectId content (some pid) depth newId now
                (st', .ok created)

end CommentsRoute

namespace CommentIdRoute

/-- PUT `/api/projects/[id]/comments/[commentId]` — edit a comment.
Checks: user, comment existence, authorship; content emptiness after
trim and raw length bound.  Note there is no `isActive` check.  Sets
the trimmed content, `metadata.isEdited` and `updatedAt`. -/
def PUT (st : EngineState) (actorId commentId : Nat) (content : Content) (now : Nat) :
    EngineState × Except ApiError CommentRec :=
  match getUser st actorId with
  | none => (st, .error .userNotFound)
  | some user =>
    match getComment st commentId with
    | none => (st, .error .commentNotFound)
    | some comment =>
      if comment.authorId != user.id then (st, .error .forbidden)
      else if (trimChars content).length == 0 then (st, .error .validationFailed)
      else if 2000 < content.length then (st, .error .validationFailed)
      else
        let updated : CommentRec :=
          { comment with content := trimChars content, isEdited := true, updatedAt := now }
        ({ st with comments := st.comments.map (fun c =>
            if c.id == commentId then
              { c with content := trimChars content, isEdited := true, updatedAt := now }
            else c) },
         .ok updated)

/-- DELETE `/api/projects/[id]/comments/[commentId]` — soft delete.
Checks: user, comment existence, author-or-admin.  Then, in source
order: tombstone the target, `$inc` the direct parent's `stats.replies`
by −1 when the target is a reply, and tombstone every comment whose
`parentCommentId` is the target (direct children only). -/
def DELETE (st : EngineState) (actorId commentId : Nat) (now : Nat) :
    EngineState × Except ApiError Unit :=
  match getUser st actorId with
  | none => (st, .error .userNotFound)
  | some user =>
    match getComment st commentId with
    | none => (st, .error .commentNotFound)
    | some comment =>
      if comment.authorId != user.id && user.role != .admin then
        (st, .error .forbidden)
      else
        let st1 : EngineState := { st with comments := st.comments.map (fun c =>
          if c.id == commentId then
            { c with isActive := false, content := tombstone, updatedAt := now }
          else c) }
        let st2 : EngineState := match comment.parentCommentId with
          | some pid => { st1 with comments := st1.comments.map (fun c =>
              if c.id == pid then { c with statsReplies := c.statsReplies - 1 } else c) }
          | none => st1
        let st3 : EngineState := { st2 with comments := st2.comments.map (fun c =>
          if c.parentCommentId == some commentId then
            { c with isActive := false, content := tombstone, updatedAt := now }
          else c) }
        (st3, .ok ())

end CommentIdRoute

/-! Auxiliary definitions used by the verification below. -/

/-- Sequential repetition of a state-transforming call. -/
def iterate (f : EngineState → EngineState) : Nat → EngineState → EngineState
  | 0, st => st
  | n + 1, st => f (iterate f n st)

/-- A Like row literal. -/
def likeRow (userId targetId : Nat) (tt : TargetType) : LikeRec :=
  { userId := userId, targetId := targetId, targetType := tt }

/-- The per-comment effect of one soft delete of comment `cid` whose
parent pointer is `parentId` at time `now`: the composition of the
three sequential updates of the DELETE handler (tombstone the target,
decrement the parent's reply counter, tombstone direct children). -/
def deleteEffect (cid : Nat) (parentId : Option Nat) (now : Nat) (d : CommentRec) : CommentRec :=
  let d1 := if d.id == cid then
    { d with isActive := false, content := tombstone, updatedAt := now } else d
  let d2 := match parentId with
    | some pid => if d1.id == pid then { d1 with statsReplies := d1.statsReplies - 1 } else d1
    | none => d1
  if d2.parentCommentId == some cid then
    { d2 with isActive := false, content := tombstone, updatedAt := now } else d2

/-- The recomputed aggregate: number of Like rows for a target. -/
def likeRowCount (st : EngineState) (targetId : Nat) (tt : TargetType) : Nat :=
  (st.likes.filter (fun l => l.targetId == targetId && l.targetType == tt)).length

/-- Whether the actor currently likes the target (a Like row exists). -/
def likedState (st : EngineState) (userId targetId : Nat) (tt : TargetType) : Bool :=
  (st.likes.find? (fun l =>
    l.userId == userId && l.targetId == targetId && l.targetType == tt)).isSome

/-- State one comment-like toggle away from `st0`: the Like row present
and the comment's stored counter incremented. -/
def likedStateC (st0 : EngineState) (userId cid : Nat) : EngineState :=
  { st0 with likes := st0.likes ++ [likeRow userId cid .comment],
             comments := st0.comments.map (fun c =>
               if c.id == cid then { c with statsLikes := c.statsLikes + 1 } else c) }

/-- State one project-like toggle away from `st0`: the Like row present
and nothing else changed (the handler maintains no stored counter). -/
def likedStateP (st0 : EngineState) (userId pid : Nat) : EngineState :=
  { st0 with likes := st0.likes ++ [likeRow userId pid .project] }

/-! Concrete fixtures used by witness and counterexample theorems. -/

/-- Fixture: an ordinary user. -/
def u1 : UserRec := { id := 1, role := .member, statsFollowers := 0, statsFollowing := 0 }

/-- Fixture: a second ordinary user. -/
def u2 : UserRec := { id := 2, role := .member, statsFollowers := 0, statsFollowing := 0 }

/-- Fixture: a project owned by user 1. -/
def p100 : ProjectRec := { id := 100, authorId := 1, statsLikes := 0 }

/-- Fixture: top-level comment A of the chain A → B → C → D. -/
def cA : CommentRec :=
  { id := 10, content := ['A'], authorId := 1, projectId := 100, parentCommentId := none,
    depth := 0, statsLikes := 0, statsReplies := 1, isEdited := false, isActive := true,
    createdAt := 1, updatedAt := 1 }

/-- Fixture: comment B, reply to A. -/
def cB : CommentRec :=
  { id := 11, content := ['B'], authorId := 1, projectId := 100, parentCommentId := some 10,
    depth := 1, statsLikes := 0, statsReplies := 1, isEdited := false, isActive := true,
    createdAt := 2, updatedAt := 2 }

/-- Fixture: comment C, reply to B. -/
def cC : CommentRec :=
  { id := 12, content := ['C'], authorId := 1, projectId := 100, parentCommentId := some 11,
    depth := 2, statsLikes := 0, statsReplies := 1, isEdited := false, isActive := true,
    createdAt := 3, updatedAt := 3 }

/-- Fixture: comment D, reply to C. -/
def cD : CommentRec :=
  { id := 13, content := ['D'], authorId := 1, projectId := 100, parentCommentId := some 12,
    depth := 3, statsLikes := 0, statsReplies := 0, isEdited := false, isActive := true,
    createdAt := 4, updatedAt := 4 }

/-- Fixture: an already-inactive (tombstoned) reply to A. -/
def cE : CommentRec :=
  { id := 14, content := tombstone, authorId := 1, projectId := 100, parentCommentId := some 10,
    depth := 1, statsLikes := 0, statsReplies := 0, isEdited := false, isActive := false,
    createdAt := 5, updatedAt := 5 }

/-- Fixture: state holding the four-comment chain A → B → C → D. -/
def stChain : EngineState :=
  { users := [u1], projects := [p100], comments := [cA, cB, cC, cD], likes := [], follows := [] }

/-- Fixture: state for the listing counterexample — comment A with one
active child B and one inactive child E. -/
def stList : EngineState :=
  { users := [u1], projects := [p100], comments := [cA, cB, cE], likes := [], follows := [] }

/-- Fixture: state with one user and one empty project. -/
def stP : EngineState :=
  { users := [u1], projects := [p100], comments := [], likes := [], follows := [] }

/-- Fixture: state with two users and no relationships. -/
def stF : EngineState :=
  { users := [u1, u2], projects := [], comments := [], likes := [], follows := [] }

/-- Content whose raw length is 2001 but whose trimmed length is 1. -/
def overlongPadded : Content := 'x' :: List.replicate 2000 ' '

/-- Chain-building step for the depth-bound scenario: user 1 posts under
project 100 with a given parent, using the fresh id also as timestamp. -/
def chainStep (st : EngineState) (parent : Option Nat) (newId : Nat) :
    EngineState × Except ApiError CommentRec :=
  CommentsRoute.POST st 1 100 ['h', 'i'] parent newId newId

/-- States of the chain build: root then replies at depths 1 to 5. -/
def chainSt0 : EngineState := (chainStep stP none 20).1

/-- Chain build after the first reply (depth 1). -/
def chainSt1 : EngineState := (chainStep chainSt0 (some 20) 21).1

/-- Chain build after the second reply (depth 2). -/
def chainSt2 : EngineState := (chainStep chainSt1 (some 21) 22).1

/-- Chain build after the third reply (depth 3). -/
def chainSt3 : EngineState := (chainStep chainSt2 (some 22) 23).1

/-- Chain build after the fourth reply (depth 4). -/
def chainSt4 : EngineState := (chainStep chainSt3 (some 23) 24).1

/-- Chain build after the fifth reply (depth 5). -/
def chainSt5 : EngineState := (chainStep chainSt4 (some 24) 25).1

/-- The comment record built by the create handler (`new Comment(...)`)
for a given author, project, raw content, parent, depth, id and time. -/
def newCommentRec (authorId projectId : Nat) (content : Content)
    (parentCommentId : Option Nat) (depth newId now : Nat) : CommentRec :=
  { id := newId, content := trimChars content, authorId := authorId,
    projectId := projectId, parentCommentId := parentCommentId, depth := depth,
    statsLikes := 0, statsReplies := 0, isEdited := false, isActive := true,
    createdAt := now, updatedAt := now }

/-- The comment at depth 4 of the built chain (id 24). -/
def chainC4 : CommentRec := newCommentRec 1 100 ['h', 'i'] (some 23) 4 24 24

/-- The comment at depth 5 of the built chain (id 25). -/
def chainC5 : CommentRec := newCommentRec 1 100 ['h', 'i'] (some 24) 5 25 25

/-- The single listing entry produced for comment A in `stList`. -/
def listEntryA : CommentEntry :=
  { id := 10, content := ['A'], createdAt := 1, updatedAt := 1,
    statsLikes := 0, statsReplies := 2 }

deriving instance DecidableEq for Except

/-! Helper lemmas. -/

/-- Finding by id commutes with mapping an id-preserving update over a
comment collection. -/
theorem comment_find?_map (f : CommentRec → CommentRec) (hf : ∀ c, (f c).id = c.id)
    (l : List CommentRec) (n : Nat) :
    (l.map f).find? (fun c => c.id == n) = (l.find? (fun c => c.id == n)).map f := by
  rw [List.find?_map]
  have hp : ((fun c : CommentRec => c.id == n) ∘ f) = (fun c : CommentRec => c.id == n) := by
    funext c
    simp [Function.comp, hf]
  rw [hp]

/-- Finding by id commutes with mapping an id-preserving update over a
user collection. -/
theorem user_find?_map (f : UserRec → UserRec) (hf : ∀ u, (f u).id = u.id)
    (l : List UserRec) (n : Nat) :
    (l.map f).find? (fun u => u.id == n) = (l.find? (fun u => u.id == n)).map f := by
  rw [List.find?_map]
  have hp : ((fun u : UserRec => u.id == n) ∘ f) = (fun u : UserRec => u.id == n) := by
    funext u
    simp [Function.comp, hf]
  rw [hp]

/-- `deleteEffect` never changes the id. -/
theorem deleteEffect_id (cid : Nat) (parentId : Option Nat) (now : Nat) (d : CommentRec) :
    (deleteEffect cid parentId now d).id = d.id := by
  unfold deleteEffect
  cases parentId <;> dsimp only <;> (repeat' split) <;> simp_all

/-- Evaluation of the DELETE handler on an authorized request: it
succeeds, applies `deleteEffect` pointwise to the comment collection
and leaves every other part of the state unchanged. -/
theorem DELETE_eq (st : EngineState) (actorId cid now : Nat) (user : UserRec) (c : CommentRec)
    (hu : getUser st actorId = some user)
    (hc : getComment st cid = some c)
    (hauth : c.authorId = user.id ∨ user.role = .admin) :
    CommentIdRoute.DELETE st actorId cid now =
      ({ st with comments := st.comments.map (deleteEffect cid c.parentCommentId now) },
       .ok ()) := by
  have hauthb : (c.authorId != user.id && user.role != Role.admin) = false := by
    rcases hauth with h | h <;> simp [h, bne_self_eq_false]
  unfold CommentIdRoute.DELETE
  rw [hu, hc]
  simp only [hauthb, Bool.false_eq_true, if_false]
  cases hp : c.parentCommentId with
  | none =>
    simp only [hp, List.map_map]
    rfl
  | some pid =>
    simp only [hp, List.map_map]
    rfl

/-- A record returned by `getUser` carries the looked-up id. -/
theorem getUser_id (st : EngineState) (n : Nat) (u : UserRec)
    (h : getUser st n = some u) : u.id = n := by
  have h' : st.users.find? (fun v => v.id == n) = some u := h
  simpa using List.find?_some h'

/-- A record returned by `getComment` carries the looked-up id. -/
theorem getComment_id (st : EngineState) (n : Nat) (c : CommentRec)
    (h : getComment st n = some c) : c.id = n := by
  have h' : st.comments.find? (fun d => d.id == n) = some c := h
  simpa using List.find?_some h'

/-- `getComment` after an authorized DELETE, for an arbitrary id. -/
theorem getComment_DELETE (st : EngineState) (actorId cid now : Nat) (user : UserRec)
    (c : CommentRec) (n : Nat)
    (hu : getUser st actorId = some user)
    (hc : getComment st cid = some c)
    (hauth : c.authorId = user.id ∨ user.role = .admin) :
    getComment (CommentIdRoute.DELETE st actorId cid now).1 n =
      (getComment st n).map (deleteEffect cid c.parentCommentId now) := by
  rw [DELETE_eq st actorId cid now user c hu hc hauth]
  exact comment_find?_map _ (deleteEffect_id cid c.parentCommentId now) st.comments n

/-- Delete effect on the target comment: it is tombstoned. -/
theorem deleteEffect_target (cid : Nat) (parentId : Option Nat) (now : Nat) (d : CommentRec)
    (hid : d.id = cid) (hp : parentId ≠ some cid) :
    deleteEffect cid parentId now d =
      { d with isActive := false, content := tombstone, updatedAt := now } := by
  subst hid
  cases parentId with
  | none =>
    simp only [deleteEffect, beq_self_eq_true, if_true]
    split <;> simp_all
  | some pid =>
    have hne : (d.id == pid) = false := by
      simp only [beq_eq_false_iff_ne]
      intro h
      exact hp (by rw [h])
    simp [deleteEffect, hne]

/-- Delete effect on a direct child of the target: it is tombstoned. -/
theorem deleteEffect_child (cid : Nat) (parentId : Option Nat) (now : Nat) (d : CommentRec)
    (hid : d.id ≠ cid) (hchild : d.parentCommentId = some cid)
    (hp : parentId ≠ some d.id) :
    deleteEffect cid parentId now d =
      { d with isActive := false, content := tombstone, updatedAt := now } := by
  have hne : (d.id == cid) = false := by simp [beq_eq_false_iff_ne, hid]
  cases parentId with
  | none =>
    simp [deleteEffect, hne, hchild]
  | some pid =>
    have hne2 : (d.id == pid) = false := by
      simp only [beq_eq_false_iff_ne]
      intro h
      exact hp (by rw [h])
    simp [deleteEffect, hne, hne2, hchild]

/-- Delete effect on the direct parent of the target: only its reply
counter is decremented. -/
theorem deleteEffect_parent (cid pid : Nat) (now : Nat) (d : CommentRec)
    (hid : d.id = pid) (hne : pid ≠ cid) (hnc : d.parentCommentId ≠ some cid) :
    deleteEffect cid (some pid) now d =
      { d with statsReplies := d.statsReplies - 1 } := by
  subst hid
  have h1 : (d.id == cid) = false := by simp [beq_eq_false_iff_ne, hne]
  have h3 : (d.parentCommentId == some cid) = false := by
    simp [beq_eq_false_iff_ne, hnc]
  simp [deleteEffect, h1, h3]

/-- Delete effect on any comment that is not the target, not a direct
child of the target, and not the target's parent: unchanged. -/
theorem deleteEffect_other (cid : Nat) (parentId : Option Nat) (now : Nat) (d : CommentRec)
    (hid : d.id ≠ cid) (hchild : d.parentCommentId ≠ some cid)
    (hp : parentId ≠ some d.id) :
    deleteEffect cid parentId now d = d := by
  have h1 : (d.id == cid) = false := by simp [beq_eq_false_iff_ne, hid]
  have h3 : (d.parentCommentId == some cid) = false := by
    simp [beq_eq_false_iff_ne, hchild]
  cases parentId with
  | none => simp [deleteEffect, h1, h3]
  | some pid =>
    have h2 : (d.id == pid) = false := by
      simp only [beq_eq_false_iff_ne]
      intro h
      exact hp (by rw [h])
    simp [deleteEffect, h1, h2, h3]

/-- Conditional user updates keep the id. -/
theorem ite_update_id (c : Bool) (v u : UserRec) (h : v.id = u.id) :
    (if c then v else u).id = u.id := by
  split
  · exact h
  · rfl

/-- Conditional comment updates keep the id. -/
theorem ite_update_comment_id (c : Bool) (v u : CommentRec) (h : v.id = u.id) :
    (if c then v else u).id = u.id := by
  split
  · exact h
  · rfl

/-! Claim theorems. -/

/-- C9 (confirmed): toggle-follow of an existing actor on itself always
fails with the self-follow rejection and returns the state untouched —
in particular no Follow row is created and the relationship store is
never reached. -/
theorem claim9_theorem (st : EngineState) (actorId : Nat) (u : UserRec)
    (hu : getUser st actorId = some u) :
    FollowRoute.POST st actorId actorId = (st, .error .selfFollow) := by
  have hid : (u.id == actorId) = true := by
    simp [getUser_id st actorId u hu]
  unfold FollowRoute.POST
  rw [hu]
  simp [hid]

/-- C9 witness: user 1 self-following in the two-user fixture state. -/
theorem claim9_witness :
    FollowRoute.POST stF 1 1 = (stF, .error .selfFollow) :=
  claim9_theorem stF 1 u1 (by decide)

/-- C10 (confirmed): an already soft-deleted comment can still be edited
by its author — the PUT handler checks only existence, authorship and
content validity, so the edit overwrites the tombstone with the new
trimmed content, sets `isEdited`, and leaves the comment inactive. -/
theorem claim10_theorem (st : EngineState) (actorId cid now : Nat) (content : Content)
    (u : UserRec) (c : CommentRec)
    (hu : getUser st actorId = some u)
    (hc : getComment st cid = some c)
    (hinactive : c.isActive = false)
    (htomb : c.content = tombstone)
    (hauthor : c.authorId = u.id)
    (hc1 : (trimChars content).length ≠ 0)
    (hc2 : content.length ≤ 2000) :
    (CommentIdRoute.PUT st actorId cid content now).2 =
      .ok { c with content := trimChars content, isEdited := true, updatedAt := now } ∧
    getComment (CommentIdRoute.PUT st actorId cid content now).1 cid =
      some { c with content := trimChars content, isEdited := true, updatedAt := now } ∧
    ({ c with content := trimChars content, isEdited := true,
              updatedAt := now } : CommentRec).isActive = false := by
  have hforb : (c.authorId != u.id) = false := by simp [hauthor]
  have hv1 : ((trimChars content).length == 0) = false := by
    simp [beq_eq_false_iff_ne, hc1]
  have hv2 : ¬(2000 < content.length) := Nat.not_lt.mpr hc2
  have hcid : (c.id == cid) = true := by simp [getComment_id st cid c hc]
  have heq : CommentIdRoute.PUT st actorId cid content now =
      ({ st with comments := st.comments.map (fun d =>
          if d.id == cid then
            { d with content := trimChars content, isEdited := true, updatedAt := now }
          else d) },
       .ok { c with content := trimChars content, isEdited := true, updatedAt := now }) := by
    unfold CommentIdRoute.PUT
    rw [hu, hc]
    simp [hforb, hv1, hv2]
  refine ⟨by rw [heq], ?_, hinactive⟩
  rw [heq]
  have hmap := comment_find?_map (fun d =>
      if d.id == cid then
        { d with content := trimChars content, isEdited := true, updatedAt := now }
      else d)
    (by intro d; dsimp only; split <;> rfl) st.comments cid
  have hg : getComment ({ st with comments := st.comments.map (fun d =>
      if d.id == cid then
        { d with content := trimChars content, isEdited := true, updatedAt := now }
      else d) } : EngineState) cid =
      (st.comments.find? (fun d => d.id == cid)).map (fun d =>
        if d.id == cid then
          { d with content := trimChars content, isEdited := true, updatedAt := now }
        else d) := hmap
  rw [hg]
  have hc' : st.comments.find? (fun d => d.id == cid) = some c := hc
  rw [hc']
  have hceq : c.id = cid := getComment_id st cid c hc
  simp [hceq]

/-- C10 witness: user 1 edits the tombstoned comment E of the listing
fixture and the tombstone is overwritten while the comment stays
inactive. -/
theorem claim10_witness :
    (CommentIdRoute.PUT stList 1 14 ['n', 'e', 'w'] 99).2 =
      .ok { cE with content := trimChars ['n', 'e', 'w'], isEdited := true, updatedAt := 99 } ∧
    getComment (CommentIdRoute.PUT stList 1 14 ['n', 'e', 'w'] 99).1 14 =
      some { cE with content := trimChars ['n', 'e', 'w'], isEdited := true, updatedAt := 99 } ∧
    ({ cE with content := trimChars ['n', 'e', 'w'], isEdited := true,
               updatedAt := 99 } : CommentRec).isActive = false :=
  claim10_theorem stList 1 14 99 ['n', 'e', 'w'] u1 cE (by decide) (by decide) (by decide)
    (by decide) (by decide) (by decide) (by decide)

/-- C3 (confirmed): every successful toggle-follow updates the two
denormalized counters as a pair in the one resulting state: on follow
both the actor's following count and the target's followers count go up
by 1, on unfollow both go down by 1; the same branch decides both. -/
theorem claim3_theorem (st : EngineState) (actorId targetUserId : Nat) (a t : UserRec)
    (ha : getUser st actorId = some a)
    (ht : getUser st targetUserId = some t)
    (hne : actorId ≠ targetUserId) :
    ∃ st' following,
      FollowRoute.POST st actorId targetUserId = (st', .ok following) ∧
      getUser st' actorId = some { a with statsFollowing :=
        if following then a.statsFollowing + 1 else a.statsFollowing - 1 } ∧
      getUser st' targetUserId = some { t with statsFollowers :=
        if following then t.statsFollowers + 1 else t.statsFollowers - 1 } := by
  have haid : a.id = actorId := getUser_id st actorId a ha
  have htid : t.id = targetUserId := getUser_id st targetUserId t ht
  have hne1 : ¬a.id = targetUserId := by rw [haid]; exact hne
  have hne2 : ¬targetUserId = a.id := fun h => hne1 h.symm
  have hne3 : ¬t.id = a.id := by
    rw [htid, haid]
    exact fun h => hne h.symm
  have hne4 : ¬targetUserId = actorId := fun h => hne h.symm
  have hself : (a.id == targetUserId) = false := by
    simp only [beq_eq_false_iff_ne]
    exact hne1
  have ha' : st.users.find? (fun u => u.id == actorId) = some a := ha
  have ht' : st.users.find? (fun u => u.id == targetUserId) = some t := ht
  unfold FollowRoute.POST
  rw [ha, ht]
  simp only [hself, Bool.false_eq_true, if_false]
  cases hf : st.follows.find? (fun f => f.followerId == a.id && f.followingId == targetUserId) with
  | some ef =>
    refine ⟨_, false, rfl, ?_, ?_⟩
    · simp only [getUser]
      rw [user_find?_map
            (fun u => if u.id == targetUserId then
              { u with statsFollowers := u.statsFollowers - 1 } else u)
            (fun u => ite_update_id _ _ u rfl),
          user_find?_map
            (fun u => if u.id == a.id then
              { u with statsFollowing := u.statsFollowing - 1 } else u)
            (fun u => ite_update_id _ _ u rfl), ha']
      simp [haid, htid, hne, hne1, hne2, hne3, hne4]
    · simp only [getUser]
      rw [user_find?_map
            (fun u => if u.id == targetUserId then
              { u with statsFollowers := u.statsFollowers - 1 } else u)
            (fun u => ite_update_id _ _ u rfl),
          user_find?_map
            (fun u => if u.id == a.id then
              { u with statsFollowing := u.statsFollowing - 1 } else u)
            (fun u => ite_update_id _ _ u rfl), ht']
      simp [haid, htid, hne, hne1, hne2, hne3, hne4]
  | none =>
    refine ⟨_, true, rfl, ?_, ?_⟩
    · simp only [getUser]
      rw [user_find?_map
            (fun u => if u.id == targetUserId then
              { u with statsFollowers := u.statsFollowers + 1 } else u)
            (fun u => ite_update_id _ _ u rfl),
          user_find?_map
            (fun u => if u.id == a.id then
              { u with statsFollowing := u.statsFollowing + 1 } else u)
            (fun u => ite_update_id _ _ u rfl), ha']
      simp [haid, htid, hne, hne1, hne2, hne3, hne4]
    · simp only [getUser]
      rw [user_find?_map
            (fun u => if u.id == targetUserId then
              { u with statsFollowers := u.statsFollowers + 1 } else u)
            (fun u => ite_update_id _ _ u rfl),
          user_find?_map
            (fun u => if u.id == a.id then
              { u with statsFollowing := u.statsFollowing + 1 } else u)
            (fun u => ite_update_id _ _ u rfl), ht']
      simp [haid, htid, hne, hne1, hne2, hne3, hne4]

/-- C3 witness: user 1 follows user 2 in the two-user fixture; both
counters move together. -/
theorem claim3_witness :
    ∃ st' following,
      FollowRoute.POST stF 1 2 = (st', .ok following) ∧
      getUser st' 1 = some { u1 with statsFollowing :=
        if following then u1.statsFollowing + 1 else u1.statsFollowing - 1 } ∧
      getUser st' 2 = some { u2 with statsFollowers :=
        if following then u2.statsFollowers + 1 else u2.statsFollowers - 1 } :=
  claim3_theorem stF 1 2 u1 u2 (by decide) (by decide) (by decide)

/-- C1 counterexample: in the chain A(10) → B(11) → C(12) → D(13),
soft-deleting A succeeds and tombstones B, but leaves the transitive
descendants C and D active — the cascade does not follow
`parentCommentId` transitively as the claim states. -/
theorem claim1_counterexample :
    (CommentIdRoute.DELETE stChain 1 10 50).2 = .ok () ∧
    (getComment (CommentIdRoute.DELETE stChain 1 10 50).1 11).map (fun c => c.isActive) =
      some false ∧
    (getComment (CommentIdRoute.DELETE stChain 1 10 50).1 12).map (fun c => c.isActive) =
      some true ∧
    (getComment (CommentIdRoute.DELETE stChain 1 10 50).1 13).map (fun c => c.isActive) =
      some true := by
  decide

/-- C1 (corrected): soft delete marks the target and its DIRECT
children inactive and tombstoned; the direct parent only has its
`stats.replies` decremented by one; every other comment — in
particular every grandchild and deeper descendant — is unchanged. -/
theorem claim1_theorem (st : EngineState) (actorId cid now : Nat) (user : UserRec)
    (c : CommentRec)
    (hu : getUser st actorId = some user)
    (hc : getComment st cid = some c)
    (hauth : c.authorId = user.id ∨ user.role = .admin)
    (hcp : c.parentCommentId ≠ some cid) :
    (CommentIdRoute.DELETE st actorId cid now).2 = .ok () ∧
    getComment (CommentIdRoute.DELETE st actorId cid now).1 cid =
      some { c with isActive := false, content := tombstone, updatedAt := now } ∧
    (∀ d : CommentRec, getComment st d.id = some d → d.parentCommentId = some cid →
      d.id ≠ cid → c.parentCommentId ≠ some d.id →
      getComment (CommentIdRoute.DELETE st actorId cid now).1 d.id =
        some { d with isActive := false, content := tombstone, updatedAt := now }) ∧
    (∀ p pid, c.parentCommentId = some pid → getComment st pid = some p → pid ≠ cid →
      p.parentCommentId ≠ some cid →
      getComment (CommentIdRoute.DELETE st actorId cid now).1 pid =
        some { p with statsReplies := p.statsReplies - 1 }) ∧
    (∀ d : CommentRec, getComment st d.id = some d → d.id ≠ cid →
      d.parentCommentId ≠ some cid → c.parentCommentId ≠ some d.id →
      getComment (CommentIdRoute.DELETE st actorId cid now).1 d.id = some d) := by
  refine ⟨?_, ?_, ?_, ?_, ?_⟩
  · rw [DELETE_eq st actorId cid now user c hu hc hauth]
  · rw [getComment_DELETE st actorId cid now user c cid hu hc hauth, hc]
    simp [deleteEffect_target cid c.parentCommentId now c (getComment_id st cid c hc) hcp]
  · intro d hd hchild hne hnp
    have hnp' : c.parentCommentId ≠ some d.id := hnp
    rw [getComment_DELETE st actorId cid now user c d.id hu hc hauth, hd]
    simp [deleteEffect_child cid c.parentCommentId now d hne hchild hnp']
  · intro p pid hpc hp hne hpnc
    rw [getComment_DELETE st actorId cid now user c pid hu hc hauth, hp, hpc]
    simp [deleteEffect_parent cid pid now p (getComment_id st pid p hp) hne hpnc]
  · intro d hd hne hchild hnp
    rw [getComment_DELETE st actorId cid now user c d.id hu hc hauth, hd]
    simp [deleteEffect_other cid c.parentCommentId now d hne hchild hnp]

/-- C1 witness: deleting A in the chain fixture tombstones A and B and
leaves the grandchild C untouched. -/
theorem claim1_witness :
    (CommentIdRoute.DELETE stChain 1 10 50).2 = .ok () ∧
    getComment (CommentIdRoute.DELETE stChain 1 10 50).1 10 =
      some { cA with isActive := false, content := tombstone, updatedAt := 50 } ∧
    getComment (CommentIdRoute.DELETE stChain 1 10 50).1 11 =
      some { cB with isActive := false, content := tombstone, updatedAt := 50 } ∧
    getComment (CommentIdRoute.DELETE stChain 1 10 50).1 12 = some cC := by
  have h := claim1_theorem stChain 1 10 50 u1 cA (by decide) (by decide)
    (Or.inl (by decide)) (by decide)
  exact ⟨h.1, h.2.1, h.2.2.1 cB (by decide) (by decide) (by decide) (by decide),
    h.2.2.2.2 cC (by decide) (by decide) (by decide) (by decide)⟩

/-- C7 counterexample: deleting B (child of A) twice is not idempotent:
the second call decrements A's `stats.replies` again (0 then −1) and
refreshes B's `updatedAt` to the second timestamp, so the state after
the second call differs from the state after the first. -/
theorem claim7_counterexample :
    (getComment (CommentIdRoute.DELETE stChain 1 11 50).1 10).map (fun c => c.statsReplies) =
      some 0 ∧
    (getComment (CommentIdRoute.DELETE (CommentIdRoute.DELETE stChain 1 11 50).1
        1 11 60).1 10).map (fun c => c.statsReplies) = some (-1) ∧
    (getComment (CommentIdRoute.DELETE (CommentIdRoute.DELETE stChain 1 11 50).1
        1 11 60).1 11).map (fun c => c.updatedAt) = some 60 ∧
    (CommentIdRoute.DELETE (CommentIdRoute.DELETE stChain 1 11 50).1 1 11 60).1 ≠
      (CommentIdRoute.DELETE stChain 1 11 50).1 := by
  decide

/-- C7 (corrected): a repeat soft delete of an already-tombstoned
comment is not skipped: it succeeds, re-tombstones the comment with the
new timestamp, and decrements the direct parent's `stats.replies` a
second time, so the state after the second call differs from the state
after the first. -/
theorem claim7_theorem (st : EngineState) (actorId cid pid now1 now2 : Nat)
    (user : UserRec) (c p : CommentRec)
    (hu : getUser st actorId = some user)
    (hc : getComment st cid = some c)
    (hcp : c.parentCommentId = some pid)
    (hp : getComment st pid = some p)
    (hauth : c.authorId = user.id ∨ user.role = .admin)
    (hne : pid ≠ cid)
    (hpnc : p.parentCommentId ≠ some cid) :
    (CommentIdRoute.DELETE (CommentIdRoute.DELETE st actorId cid now1).1 actorId cid now2).2 =
      .ok () ∧
    getComment (CommentIdRoute.DELETE st actorId cid now1).1 pid =
      some { p with statsReplies := p.statsReplies - 1 } ∧
    getComment (CommentIdRoute.DELETE (CommentIdRoute.DELETE st actorId cid now1).1
        actorId cid now2).1 pid = some { p with statsReplies := p.statsReplies - 2 } ∧
    getComment (CommentIdRoute.DELETE (CommentIdRoute.DELETE st actorId cid now1).1
        actorId cid now2).1 cid =
      some { c with isActive := false, content := tombstone, updatedAt := now2 } := by
  have hcid : c.id = cid := getComment_id st cid c hc
  have hpid : p.id = pid := getComment_id st pid p hp
  have hparent_ne : c.parentCommentId ≠ some cid := by
    rw [hcp]
    intro h
    exact hne (by injection h)
  set c1 : CommentRec := { c with isActive := false, content := tombstone, updatedAt := now1 }
    with hc1def
  have hu1 : getUser (CommentIdRoute.DELETE st actorId cid now1).1 actorId = some user := by
    rw [DELETE_eq st actorId cid now1 user c hu hc hauth]
    exact hu
  have hc1 : getComment (CommentIdRoute.DELETE st actorId cid now1).1 cid = some c1 := by
    rw [getComment_DELETE st actorId cid now1 user c cid hu hc hauth, hc]
    simp [deleteEffect_target cid c.parentCommentId now1 c hcid hparent_ne, hc1def]
  have hp1 : getComment (CommentIdRoute.DELETE st actorId cid now1).1 pid =
      some { p with statsReplies := p.statsReplies - 1 } := by
    rw [getComment_DELETE st actorId cid now1 user c pid hu hc hauth, hp, hcp]
    simp [deleteEffect_parent cid pid now1 p hpid hne hpnc]
  have hauth1 : c1.authorId = user.id ∨ user.role = .admin := by
    rcases hauth with h | h
    · exact Or.inl h
    · exact Or.inr h
  have hc1p : c1.parentCommentId = some pid := hcp
  refine ⟨?_, hp1, ?_, ?_⟩
  · rw [DELETE_eq (CommentIdRoute.DELETE st actorId cid now1).1 actorId cid now2 user c1
      hu1 hc1 hauth1]
  · rw [getComment_DELETE (CommentIdRoute.DELETE st actorId cid now1).1 actorId cid now2
      user c1 pid hu1 hc1 hauth1, hp1, hc1p]
    have hpid' : ({ p with statsReplies := p.statsReplies - 1 } : CommentRec).id = pid := hpid
    have hpnc' : ({ p with statsReplies := p.statsReplies - 1 } : CommentRec).parentCommentId ≠
        some cid := hpnc
    rw [Option.map_some', deleteEffect_parent cid pid now2 _ hpid' hne hpnc']
    simp only [Option.some.injEq]
    have : p.statsReplies - 1 - 1 = p.statsReplies - 2 := by omega
    simp [this]
  · rw [getComment_DELETE (CommentIdRoute.DELETE st actorId cid now1).1 actorId cid now2
      user c1 cid hu1 hc1 hauth1, hc1]
    have hc1id : c1.id = cid := hcid
    have hc1pne : c1.parentCommentId ≠ some cid := hparent_ne
    rw [Option.map_some', deleteEffect_target cid c1.parentCommentId now2 c1 hc1id hc1pne]

/-- C7 witness: double-deleting B in the chain fixture. -/
theorem claim7_witness :
    (CommentIdRoute.DELETE (CommentIdRoute.DELETE stChain 1 11 50).1 1 11 60).2 = .ok () ∧
    getComment (CommentIdRoute.DELETE stChain 1 11 50).1 10 =
      some { cA with statsReplies := cA.statsReplies - 1 } ∧
    getComment (CommentIdRoute.DELETE (CommentIdRoute.DELETE stChain 1 11 50).1
        1 11 60).1 10 = some { cA with statsReplies := cA.statsReplies - 2 } ∧
    getComment (CommentIdRoute.DELETE (CommentIdRoute.DELETE stChain 1 11 50).1
        1 11 60).1 11 =
      some { cB with isActive := false, content := tombstone, updatedAt := 60 } :=
  claim7_theorem stChain 1 11 10 50 60 u1 cB cA (by decide) (by decide) (by decide)
    (by decide) (Or.inl (by decide)) (by decide) (by decide)

/-- Evaluation of the create handler on a valid reply request whose
depth stays within the bound: the reply is saved and the parent's
`stats.replies` is incremented. -/
theorem POST_reply_eq (st : EngineState) (actorId projectId pid newId now : Nat)
    (content : Content) (user : UserRec) (proj : ProjectRec) (parent : CommentRec)
    (hu : getUser st actorId = some user)
    (hp : getProject st projectId = some proj)
    (hparent : getComment st pid = some parent)
    (hsame : parent.projectId = projectId)
    (hc1 : (trimChars content).length ≠ 0)
    (hc2 : content.length ≤ 2000)
    (hdepth : parent.depth + 1 ≤ 5) :
    CommentsRoute.POST st actorId projectId content (some pid) newId now =
      ({ st with comments :=
          (st.comments ++ [newCommentRec user.id projectId content (some pid)
              (parent.depth + 1) newId now]).map (fun c =>
            if c.id == pid then { c with statsReplies := c.statsReplies + 1 } else c) },
       .ok (newCommentRec user.id projectId content (some pid)
              (parent.depth + 1) newId now)) := by
  have hv1 : ((trimChars content).length == 0) = false := by
    simp [beq_eq_false_iff_ne, hc1]
  have hv2 : ¬2000 < content.length := Nat.not_lt.mpr hc2
  have hsp : (parent.projectId != projectId) = false := by simp [hsame]
  have hd : ¬5 < parent.depth + 1 := Nat.not_lt.mpr hdepth
  unfold CommentsRoute.POST
  rw [hu, hp]
  dsimp only
  rw [hparent]
  dsimp only
  simp only [hv1, Bool.false_eq_true, if_false]
  rw [if_neg hv2]
  simp only [hsp, Bool.false_eq_true, if_false]
  rw [if_neg hd]
  simp only [CommentsRoute.saveComment, newCommentRec]

/-- Evaluation of the create handler on a reply request that would
exceed the depth bound: rejected, state untouched. -/
theorem POST_reply_depthExceeded (st : EngineState) (actorId projectId pid newId now : Nat)
    (content : Content) (user : UserRec) (proj : ProjectRec) (parent : CommentRec)
    (hu : getUser st actorId = some user)
    (hp : getProject st projectId = some proj)
    (hparent : getComment st pid = some parent)
    (hsame : parent.projectId = projectId)
    (hc1 : (trimChars content).length ≠ 0)
    (hc2 : content.length ≤ 2000)
    (hdeep : 5 < parent.depth + 1) :
    CommentsRoute.POST st actorId projectId content (some pid) newId now =
      (st, .error .depthExceeded) := by
  have hv1 : ((trimChars content).length == 0) = false := by
    simp [beq_eq_false_iff_ne, hc1]
  have hv2 : ¬2000 < content.length := Nat.not_lt.mpr hc2
  have hsp : (parent.projectId != projectId) = false := by simp [hsame]
  unfold CommentsRoute.POST
  rw [hu, hp]
  dsimp only
  rw [hparent]
  dsimp only
  simp only [hv1, Bool.false_eq_true, if_false]
  rw [if_neg hv2]
  simp only [hsp, Bool.false_eq_true, if_false]
  rw [if_pos hdeep]

/-- C5 (corrected): a reply to a parent of depth `d` succeeds with depth
`d + 1` exactly when `d + 1 ≤ 5`, and is rejected with the depth error
(state untouched, never truncated) when `d + 1 > 5`.  Hence a chain of
`MAX_DEPTH + 1 = 6` comments (root at depth 0 through depth 5) is built
entirely by succeeding reply attempts — the fifth reply attempt does
not fail — and the first failing attempt is the sixth, which would
create depth 6. -/
theorem claim5_theorem (st : EngineState) (actorId projectId pid newId now : Nat)
    (content : Content) (user : UserRec) (proj : ProjectRec) (parent : CommentRec)
    (hu : getUser st actorId = some user)
    (hp : getProject st projectId = some proj)
    (hparent : getComment st pid = some parent)
    (hsame : parent.projectId = projectId)
    (hc1 : (trimChars content).length ≠ 0)
    (hc2 : content.length ≤ 2000) :
    (parent.depth + 1 ≤ 5 →
      (CommentsRoute.POST st actorId projectId content (some pid) newId now).2 =
        .ok (newCommentRec user.id projectId content (some pid)
              (parent.depth + 1) newId now)) ∧
    (5 < parent.depth + 1 →
      CommentsRoute.POST st actorId projectId content (some pid) newId now =
        (st, .error .depthExceeded)) := by
  constructor
  · intro hdepth
    rw [POST_reply_eq st actorId projectId pid newId now content user proj parent
      hu hp hparent hsame hc1 hc2 hdepth]
  · intro hdeep
    exact POST_reply_depthExceeded st actorId projectId pid newId now content user proj parent
      hu hp hparent hsame hc1 hc2 hdeep

/-- C5 counterexample: in the concrete chain build, the fifth reply
attempt (which the claim says must fail) succeeds with depth 5, and it
is the sixth attempt that is rejected with the depth error. -/
theorem claim5_counterexample :
    (chainStep chainSt4 (some 24) 25).2 = .ok chainC5 ∧
    (chainStep chainSt5 (some 25) 26).2 =
      (.error .depthExceeded : Except ApiError CommentRec) := by
  decide

/-- C5 witness: the general depth rule applied to the concrete chain —
the fifth reply attempt succeeds, the sixth fails. -/
theorem claim5_witness :
    (CommentsRoute.POST chainSt4 1 100 ['h', 'i'] (some 24) 25 25).2 = .ok chainC5 ∧
    CommentsRoute.POST chainSt5 1 100 ['h', 'i'] (some 25) 26 26 =
      (chainSt5, .error .depthExceeded) := by
  constructor
  · have h := claim5_theorem chainSt4 1 100 24 25 25 ['h', 'i'] u1 p100 chainC4
      (by decide) (by decide) (by decide) (by decide) (by decide) (by decide)
    exact h.1 (by decide)
  · have h := claim5_theorem chainSt5 1 100 25 26 26 ['h', 'i'] u1 p100 chainC5
      (by decide) (by decide) (by decide) (by decide) (by decide) (by decide)
    exact h.2 (by decide)

/-- C8 counterexample: comment 14 of the listing fixture is inactive,
yet creating a reply under it succeeds, and the new reply 30 is active
in the resulting state — neither rejected nor retro-deleted. -/
theorem claim8_counterexample :
    (getComment stList 14).map (fun c => c.isActive) = some false ∧
    (CommentsRoute.POST stList 1 100 ['h', 'i'] (some 14) 30 30).2 =
      .ok (newCommentRec 1 100 ['h', 'i'] (some 14) 2 30 30) ∧
    (getComment (CommentsRoute.POST stList 1 100 ['h', 'i'] (some 14) 30 30).1 30).map
      (fun c => c.isActive) = some true := by
  decide

/-- C8 (corrected): the create handler never inspects the parent's
`isActive`: a valid reply to an inactive (tombstoned) parent is created
active and remains active and resolvable in the resulting state, so the
invariant that no active comment has an inactive parent is not
enforced. -/
theorem claim8_theorem (st : EngineState) (actorId projectId pid newId now : Nat)
    (content : Content) (user : UserRec) (proj : ProjectRec) (parent : CommentRec)
    (hu : getUser st actorId = some user)
    (hp : getProject st projectId = some proj)
    (hparent : getComment st pid = some parent)
    (hinactive : parent.isActive = false)
    (hsame : parent.projectId = projectId)
    (hc1 : (trimChars content).length ≠ 0)
    (hc2 : content.length ≤ 2000)
    (hdepth : parent.depth + 1 ≤ 5)
    (hfresh : getComment st newId = none)
    (hne : pid ≠ newId) :
    (CommentsRoute.POST st actorId projectId content (some pid) newId now).2 =
      .ok (newCommentRec user.id projectId content (some pid)
            (parent.depth + 1) newId now) ∧
    getComment (CommentsRoute.POST st actorId projectId content (some pid) newId now).1
        newId =
      some (newCommentRec user.id projectId content (some pid)
            (parent.depth + 1) newId now) ∧
    (newCommentRec user.id projectId content (some pid)
       (parent.depth + 1) newId now).isActive = true := by
  rw [POST_reply_eq st actorId projectId pid newId now content user proj parent
    hu hp hparent hsame hc1 hc2 hdepth]
  refine ⟨rfl, ?_, rfl⟩
  have hfresh' : st.comments.find? (fun c => c.id == newId) = none := hfresh
  have hmap := comment_find?_map
    (fun c => if c.id == pid then { c with statsReplies := c.statsReplies + 1 } else c)
    (fun c => ite_update_comment_id _ _ c rfl)
    (st.comments ++ [newCommentRec user.id projectId content (some pid)
        (parent.depth + 1) newId now]) newId
  have hg : getComment ({ st with comments :=
      (st.comments ++ [newCommentRec user.id projectId content (some pid)
          (parent.depth + 1) newId now]).map (fun c =>
        if c.id == pid then { c with statsReplies := c.statsReplies + 1 } else c) } :
      EngineState) newId =
      ((st.comments ++ [newCommentRec user.id projectId content (some pid)
          (parent.depth + 1) newId now]).find? (fun c => c.id == newId)).map (fun c =>
        if c.id == pid then { c with statsReplies := c.statsReplies + 1 } else c) := hmap
  rw [hg, List.find?_append, hfresh']
  have hnewid : ((newCommentRec user.id projectId content (some pid)
      (parent.depth + 1) newId now).id == newId) = true := by
    simp [newCommentRec]
  have hpidne : ((newCommentRec user.id projectId content (some pid)
      (parent.depth + 1) newId now).id == pid) = false := by
    simp [newCommentRec, beq_eq_false_iff_ne]
    exact fun h => hne h.symm
  simp [List.find?, hnewid, hpidne]
  intro h
  have hip : newId = pid := by simpa [newCommentRec] using h
  exact absurd hip.symm hne

/-- C8 witness: the general statement applied to the inactive comment
14 of the listing fixture. -/
theorem claim8_witness :
    (CommentsRoute.POST stList 1 100 ['h', 'i'] (some 14) 30 30).2 =
      .ok (newCommentRec 1 100 ['h', 'i'] (some 14) 2 30 30) ∧
    getComment (CommentsRoute.POST stList 1 100 ['h', 'i'] (some 14) 30 30).1 30 =
      some (newCommentRec 1 100 ['h', 'i'] (some 14) 2 30 30) ∧
    (newCommentRec 1 100 ['h', 'i'] (some 14) 2 30 30).isActive = true :=
  claim8_theorem stList 1 100 14 30 30 ['h', 'i'] u1 p100 cE (by decide) (by decide)
    (by decide) (by decide) (by decide) (by decide) (by decide) (by decide) (by decide)
    (by decide)

/-- Trimming one non-space character followed by `n` spaces yields just
that character, for every `n`. -/
theorem trimChars_cons_spaces (n : Nat) :
    trimChars ('x' :: List.replicate n ' ') = ['x'] := by
  have hx : Char.isWhitespace 'x' = false := by decide
  have hs : ∀ a ∈ List.replicate n ' ', Char.isWhitespace a := by
    intro a ha
    rw [List.eq_of_mem_replicate ha]
    decide
  unfold trimChars
  rw [List.dropWhile_cons]
  simp only [hx, Bool.false_eq_true, if_false]
  rw [List.reverse_cons, List.reverse_replicate, List.dropWhile_append_of_pos hs,
    List.dropWhile_cons]
  simp only [hx, Bool.false_eq_true, if_false]
  rfl

/-- C6 counterexample: the content made of one letter and 2000 trailing
spaces has trimmed length 1 (inside the claimed acceptance window) but
is rejected by both create and edit, because the 2000-character upper
bound is checked on the RAW, untrimmed length (2001 here). -/
theorem claim6_counterexample :
    1 ≤ (trimChars overlongPadded).length ∧
    (trimChars overlongPadded).length ≤ 2000 ∧
    (CommentsRoute.POST stP 1 100 overlongPadded none 30 30).2 =
      .error .validationFailed ∧
    (CommentIdRoute.PUT stList 1 10 overlongPadded 99).2 = .error .validationFailed := by
  have ht : trimChars overlongPadded = ['x'] := trimChars_cons_spaces 2000
  have hlen : overlongPadded.length = 2001 := by
    show ('x' :: List.replicate 2000 ' ').length = 2001
    rw [List.length_cons, List.length_replicate]
  have hv1 : ((trimChars overlongPadded).length == 0) = false := by
    rw [ht]
    decide
  have hv2 : 2000 < overlongPadded.length := by
    rw [hlen]
    decide
  refine ⟨by rw [ht]; decide, by rw [ht]; decide, ?_, ?_⟩
  · have hpost : CommentsRoute.POST stP 1 100 overlongPadded none 30 30 =
        (stP, .error .validationFailed) := by
      unfold CommentsRoute.POST
      rw [show getUser stP 1 = some u1 from by decide,
          show getProject stP 100 = some p100 from by decide]
      dsimp only
      simp only [hv1, Bool.false_eq_true, if_false]
      rw [if_pos hv2]
    rw [hpost]
  · have hput : CommentIdRoute.PUT stList 1 10 overlongPadded 99 =
        (stList, .error .validationFailed) := by
      unfold CommentIdRoute.PUT
      rw [show getUser stList 1 = some u1 from by decide,
          show getComment stList 10 = some cA from by decide]
      dsimp only
      rw [show (cA.authorId != u1.id) = false from by decide]
      simp only [Bool.false_eq_true, if_false, hv1]
      rw [if_pos hv2]
    rw [hput]

/-- C6 (corrected): with user, project, comment and authorship checks
satisfied, create (top-level) and edit accept the content exactly when
its TRIMMED length is at least 1 and its RAW (untrimmed) length is at
most 2000 — the upper bound is checked before trimming, not after as
the claim states. -/
theorem claim6_theorem (st : EngineState) (actorId projectId cid newId now : Nat)
    (content : Content) (user : UserRec) (proj : ProjectRec) (c : CommentRec)
    (hu : getUser st actorId = some user)
    (hp : getProject st projectId = some proj)
    (hc : getComment st cid = some c)
    (hauthor : c.authorId = user.id) :
    (((CommentsRoute.POST st actorId projectId content none newId now).2.isOk = true) ↔
      (1 ≤ (trimChars content).length ∧ content.length ≤ 2000)) ∧
    (((CommentIdRoute.PUT st actorId cid content now).2.isOk = true) ↔
      (1 ≤ (trimChars content).length ∧ content.length ≤ 2000)) := by
  have hforb : (c.authorId != user.id) = false := by simp [hauthor]
  constructor
  · unfold CommentsRoute.POST
    rw [hu, hp]
    dsimp only
    by_cases h1 : (trimChars content).length = 0
    · simp [h1, Except.isOk, Except.toBool]
    · by_cases h2 : 2000 < content.length
      · have h2' : ¬content.length ≤ 2000 := Nat.not_le.mpr h2
        simp [h1, h2, h2', Except.isOk, Except.toBool]
      · have h1' : 1 ≤ (trimChars content).length := Nat.one_le_iff_ne_zero.mpr h1
        have h2' : content.length ≤ 2000 := Nat.not_lt.mp h2
        simp [h1, h2, h1', h2', CommentsRoute.saveComment, Except.isOk, Except.toBool]
  · unfold CommentIdRoute.PUT
    rw [hu, hc]
    dsimp only
    rw [hforb]
    by_cases h1 : (trimChars content).length = 0
    · simp [h1, Except.isOk, Except.toBool]
    · by_cases h2 : 2000 < content.length
      · have h2' : ¬content.length ≤ 2000 := Nat.not_le.mpr h2
        simp [h1, h2, h2', Except.isOk, Except.toBool]
      · have h1' : 1 ≤ (trimChars content).length := Nat.one_le_iff_ne_zero.mpr h1
        have h2' : content.length ≤ 2000 := Nat.not_lt.mp h2
        simp [h1, h2, h1', h2', Except.isOk, Except.toBool]

/-- C6 witness: the two-character content is accepted by both create
and edit in the listing fixture. -/
theorem claim6_witness :
    (CommentsRoute.POST stList 1 100 ['o', 'k'] none 40 40).2.isOk = true ∧
    (CommentIdRoute.PUT stList 1 10 ['o', 'k'] 41).2.isOk = true := by
  have h := claim6_theorem stList 1 100 10 40 40 ['o', 'k'] u1 p100 cA
    (by decide) (by decide) (by decide) (by decide)
  exact ⟨h.1.mpr (by decide), h.2.mpr (by decide)⟩

/-- Membership through sorted insertion. -/
theorem mem_insertSorted {α : Type} (lt : α → α → Bool) (a x : α) (l : List α) :
    x ∈ insertSorted lt a l ↔ x = a ∨ x ∈ l := by
  induction l with
  | nil => simp [insertSorted]
  | cons b bs ih =>
    simp only [insertSorted]
    split
    · simp only [List.mem_cons, ih]
      try tauto
    · simp only [List.mem_cons]
      try tauto

/-- Membership is preserved by the sort stage. -/
theorem mem_sortList {α : Type} (lt : α → α → Bool) (x : α) (l : List α) :
    x ∈ sortList lt l ↔ x ∈ l := by
  induction l with
  | nil => simp [sortList]
  | cons a as ih =>
    simp [sortList, mem_insertSorted, ih]

/-- C4 counterexample: comment A of the listing fixture has one active
child (B) and one inactive child (E), yet the listing reports
`repliesCount = 2` — the read-time aggregate counts ALL direct
children, not only the active ones as the claim states. -/
theorem claim4_counterexample :
    CommentsRoute.GET stList 100 1 20 .createdAt .desc = .ok [listEntryA] ∧
    listEntryA.statsReplies = 2 ∧
    (stList.comments.filter (fun r =>
      r.parentCommentId == some 10 && r.isActive)).length = 1 := by
  decide

/-- C4 (corrected): every entry returned by the comment listing reports
`repliesCount` as the number of ALL its direct children at read time,
whether active or not (the reply `$lookup` has no `isActive` filter). -/
theorem claim4_theorem (st : EngineState) (projectId page limit : Nat)
    (sortBy : SortBy) (sortOrder : SortOrder) (out : List CommentEntry)
    (hout : CommentsRoute.GET st projectId page limit sortBy sortOrder = .ok out) :
    ∀ e ∈ out, e.statsReplies =
      (st.comments.filter (fun r => r.parentCommentId == some e.id)).length := by
  unfold CommentsRoute.GET at hout
  cases hp : getProject st projectId with
  | none =>
    rw [hp] at hout
    exact absurd hout (by simp)
  | some proj =>
    rw [hp] at hout
    simp only [Except.ok.injEq] at hout
    intro e he
    rw [← hout] at he
    have h1 : e ∈ (sortList (entryLt sortBy sortOrder)
        ((st.comments.filter (fun c =>
          c.projectId == projectId && c.parentCommentId == none && c.isActive)).map (fun c =>
            { id := c.id, content := c.content, createdAt := c.createdAt,
              updatedAt := c.updatedAt, statsLikes := c.statsLikes,
              statsReplies := (repliesOf st c.id).length : CommentEntry }))) :=
      List.mem_of_mem_drop (List.mem_of_mem_take he)
    rw [mem_sortList] at h1
    obtain ⟨c, hcmem, hce⟩ := List.mem_map.mp h1
    rw [← hce]
    rfl

/-- C4 witness: the single entry returned for the listing fixture obeys
the all-children count. -/
theorem claim4_witness :
    listEntryA.statsReplies =
      (stList.comments.filter (fun r =>
        r.parentCommentId == some listEntryA.id)).length := by
  have h := claim4_theorem stList 100 1 20 .createdAt .desc [listEntryA] (by decide)
  exact h listEntryA (by decide)

/-- In a state with no Like rows for a target, the toggle's lookup for
any actor on that target finds nothing. -/
theorem find?_like_none (likes : List LikeRec) (uid tid : Nat) (tt : TargetType)
    (hclean : likes.filter (fun l => l.targetId == tid && l.targetType == tt) = []) :
    likes.find? (fun l =>
      l.userId == uid && l.targetId == tid && l.targetType == tt) = none := by
  rw [List.find?_eq_none]
  intro l hl hpred
  have hmem : l ∈ likes.filter (fun l => l.targetId == tid && l.targetType == tt) := by
    rw [List.mem_filter]
    refine ⟨hl, ?_⟩
    simp only [Bool.and_eq_true] at hpred ⊢
    tauto
  rw [hclean] at hmem
  simp at hmem

/-- The fresh Like row is not already present in a clean state. -/
theorem likeRow_not_mem (likes : List LikeRec) (uid tid : Nat) (tt : TargetType)
    (hclean : likes.filter (fun l => l.targetId == tid && l.targetType == tt) = []) :
    likeRow uid tid tt ∉ likes := by
  intro hmem
  have hf : likeRow uid tid tt ∈
      likes.filter (fun l => l.targetId == tid && l.targetType == tt) := by
    rw [List.mem_filter]
    exact ⟨hmem, by simp [likeRow]⟩
  rw [hclean] at hf
  simp at hf

/-- A comment-like toggle from a clean state inserts the row and bumps
the stored counter: the resulting state is `likedStateC`. -/
theorem commentToggle_fromClean (st0 : EngineState) (actorId cid : Nat)
    (user : UserRec) (c0 : CommentRec)
    (hu : getUser st0 actorId = some user)
    (hc : getComment st0 cid = some c0)
    (hcleanC : st0.likes.filter (fun l =>
      l.targetId == cid && l.targetType == TargetType.comment) = []) :
    (CommentLikeRoute.POST st0 actorId cid).1 = likedStateC st0 user.id cid := by
  have hfind := find?_like_none st0.likes user.id cid .comment hcleanC
  unfold CommentLikeRoute.POST
  rw [hu, hc]
  dsimp only
  rw [hfind]
  rfl

/-- A comment-like toggle from the liked state removes the row and
restores the stored counter: the state returns to `st0` exactly. -/
theorem commentToggle_fromLiked (st0 : EngineState) (actorId cid : Nat)
    (user : UserRec) (c0 : CommentRec)
    (hu : getUser st0 actorId = some user)
    (hc : getComment st0 cid = some c0)
    (hcleanC : st0.likes.filter (fun l =>
      l.targetId == cid && l.targetType == TargetType.comment) = []) :
    (CommentLikeRoute.POST (likedStateC st0 user.id cid) actorId cid).1 = st0 := by
  have hu' : getUser (likedStateC st0 user.id cid) actorId = some user := hu
  have hc' : getComment (likedStateC st0 user.id cid) cid =
      some (if c0.id == cid then { c0 with statsLikes := c0.statsLikes + 1 } else c0) := by
    show (st0.comments.map (fun d =>
      if d.id == cid then { d with statsLikes := d.statsLikes + 1 } else d)).find?
        (fun d => d.id == cid) = _
    rw [comment_find?_map (fun d =>
        if d.id == cid then { d with statsLikes := d.statsLikes + 1 } else d)
      (fun d => ite_update_comment_id _ _ d rfl) st0.comments cid,
      show st0.comments.find? (fun d => d.id == cid) = some c0 from hc]
    rfl
  have hfind0 := find?_like_none st0.likes user.id cid .comment hcleanC
  have hfind : (likedStateC st0 user.id cid).likes.find? (fun l =>
      l.userId == user.id && l.targetId == cid && l.targetType == TargetType.comment) =
      some (likeRow user.id cid .comment) := by
    show (st0.likes ++ [likeRow user.id cid .comment]).find? _ = _
    rw [List.find?_append, hfind0]
    simp [likeRow]
  have herase : (st0.likes ++ [likeRow user.id cid .comment]).erase
      (likeRow user.id cid .comment) = st0.likes := by
    rw [List.erase_append_right _ (likeRow_not_mem st0.likes user.id cid .comment hcleanC)]
    simp
  have hmapcomm : ((st0.comments.map (fun d =>
      if d.id == cid then { d with statsLikes := d.statsLikes + 1 } else d)).map (fun d =>
      if d.id == cid then { d with statsLikes := d.statsLikes - 1 } else d)) = st0.comments := by
    rw [List.map_map]
    have hpt : ∀ d ∈ st0.comments, ((fun d : CommentRec =>
        if d.id == cid then { d with statsLikes := d.statsLikes - 1 } else d) ∘
        (fun d : CommentRec =>
        if d.id == cid then { d with statsLikes := d.statsLikes + 1 } else d)) d = id d := by
      intro d _
      by_cases h : (d.id == cid) = true
      · simp [Function.comp, h]
      · simp [Function.comp, h]
    rw [List.map_congr_left hpt, List.map_id]
  unfold CommentLikeRoute.POST
  rw [hu']
  dsimp only
  rw [hc']
  dsimp only
  rw [hfind]
  dsimp only
  simp only [likedStateC]
  rw [herase, hmapcomm]

/-- A project-like toggle from a clean state only inserts the row: the
resulting state is `likedStateP`; no counter is written. -/
theorem projectToggle_fromClean (st0 : EngineState) (actorId pid : Nat)
    (user : UserRec) (proj : ProjectRec)
    (hu : getUser st0 actorId = some user)
    (hp : getProject st0 pid = some proj)
    (hcleanP : st0.likes.filter (fun l =>
      l.targetId == pid && l.targetType == TargetType.project) = []) :
    (ProjectLikeRoute.POST st0 actorId pid).1 = likedStateP st0 user.id pid := by
  have hfind := find?_like_none st0.likes user.id pid .project hcleanP
  unfold ProjectLikeRoute.POST
  rw [hu, hp]
  dsimp only
  rw [hfind]
  rfl

/-- A project-like toggle from the liked state removes the row: the
state returns to `st0` exactly. -/
theorem projectToggle_fromLiked (st0 : EngineState) (actorId pid : Nat)
    (user : UserRec) (proj : ProjectRec)
    (hu : getUser st0 actorId = some user)
    (hp : getProject st0 pid = some proj)
    (hcleanP : st0.likes.filter (fun l =>
      l.targetId == pid && l.targetType == TargetType.project) = []) :
    (ProjectLikeRoute.POST (likedStateP st0 user.id pid) actorId pid).1 = st0 := by
  have hu' : getUser (likedStateP st0 user.id pid) actorId = some user := hu
  have hp' : getProject (likedStateP st0 user.id pid) pid = some proj := hp
  have hfind0 := find?_like_none st0.likes user.id pid .project hcleanP
  have hfind : (likedStateP st0 user.id pid).likes.find? (fun l =>
      l.userId == user.id && l.targetId == pid && l.targetType == TargetType.project) =
      some (likeRow user.id pid .project) := by
    show (st0.likes ++ [likeRow user.id pid .project]).find? _ = _
    rw [List.find?_append, hfind0]
    simp [likeRow]
  have herase : (st0.likes ++ [likeRow user.id pid .project]).erase
      (likeRow user.id pid .project) = st0.likes := by
    rw [List.erase_append_right _ (likeRow_not_mem st0.likes user.id pid .project hcleanP)]
    simp
  unfold ProjectLikeRoute.POST
  rw [hu']
  dsimp only
  rw [hp']
  dsimp only
  rw [hfind]
  dsimp only
  simp only [likedStateP]
  rw [herase]

/-- The comment-like toggle has period two from a clean state. -/
theorem commentToggle_iterate (st0 : EngineState) (actorId cid : Nat)
    (user : UserRec) (c0 : CommentRec)
    (hu : getUser st0 actorId = some user)
    (hc : getComment st0 cid = some c0)
    (hcleanC : st0.likes.filter (fun l =>
      l.targetId == cid && l.targetType == TargetType.comment) = [])
    (n : Nat) :
    iterate (fun s => (CommentLikeRoute.POST s actorId cid).1) n st0 =
      if n % 2 = 0 then st0 else likedStateC st0 user.id cid := by
  induction n with
  | zero => simp [iterate]
  | succ k ih =>
    show (CommentLikeRoute.POST
      (iterate (fun s => (CommentLikeRoute.POST s actorId cid).1) k st0) actorId cid).1 = _
    rw [ih]
    by_cases hk : k % 2 = 0
    · rw [if_pos hk, commentToggle_fromClean st0 actorId cid user c0 hu hc hcleanC,
        if_neg (by omega)]
    · rw [if_neg hk, commentToggle_fromLiked st0 actorId cid user c0 hu hc hcleanC,
        if_pos (by omega)]

/-- The project-like toggle has period two from a clean state. -/
theorem projectToggle_iterate (st0 : EngineState) (actorId pid : Nat)
    (user : UserRec) (proj : ProjectRec)
    (hu : getUser st0 actorId = some user)
    (hp : getProject st0 pid = some proj)
    (hcleanP : st0.likes.filter (fun l =>
      l.targetId == pid && l.targetType == TargetType.project) = [])
    (n : Nat) :
    iterate (fun s => (ProjectLikeRoute.POST s actorId pid).1) n st0 =
      if n % 2 = 0 then st0 else likedStateP st0 user.id pid := by
  induction n with
  | zero => simp [iterate]
  | succ k ih =>
    show (ProjectLikeRoute.POST
      (iterate (fun s => (ProjectLikeRoute.POST s actorId pid).1) k st0) actorId pid).1 = _
    rw [ih]
    by_cases hk : k % 2 = 0
    · rw [if_pos hk, projectToggle_fromClean st0 actorId pid user proj hu hp hcleanP,
        if_neg (by omega)]
    · rw [if_neg hk, projectToggle_fromLiked st0 actorId pid user proj hu hp hcleanP,
        if_pos (by omega)]

/-- C2 counterexample: one project-like toggle from a clean state
returns liked (1 mod 2 = 1), but the stored `Project.stats.likes`
counter stays 0 while the recomputed count of Like rows is 1 — the
stored counter on the owning project does not equal the recomputed
aggregate, because the project toggle never writes any stored counter. -/
theorem claim2_counterexample :
    (ProjectLikeRoute.POST stP 1 100).2 = .ok true ∧
    (getProject (ProjectLikeRoute.POST stP 1 100).1 100).map (fun p => p.statsLikes) =
      some 0 ∧
    likeRowCount (ProjectLikeRoute.POST stP 1 100).1 100 .project = 1 := by
  decide

/-- C2 (corrected): after `n` sequential toggles from a clean state the
liked state (existence of the Like row) equals `n mod 2 == 1` for both
comment and project targets, and the recomputed row count is `n mod 2`;
for COMMENT targets the stored `stats.likes` equals the recomputed
count, while for PROJECT targets the toggle writes no stored counter —
the project document is exactly its initial value — and the project
read path recomputes the count from the Like rows instead. -/
theorem claim2_theorem (st0 : EngineState) (actorId cid pid n : Nat)
    (user : UserRec) (c0 : CommentRec) (proj : ProjectRec)
    (hu : getUser st0 actorId = some user)
    (hc : getComment st0 cid = some c0)
    (hp : getProject st0 pid = some proj)
    (hcounter : c0.statsLikes = 0)
    (hcleanC : st0.likes.filter (fun l =>
      l.targetId == cid && l.targetType == TargetType.comment) = [])
    (hcleanP : st0.likes.filter (fun l =>
      l.targetId == pid && l.targetType == TargetType.project) = []) :
    (likedState (iterate (fun s => (CommentLikeRoute.POST s actorId cid).1) n st0)
        user.id cid .comment = (n % 2 == 1)) ∧
    (likeRowCount (iterate (fun s => (CommentLikeRoute.POST s actorId cid).1) n st0)
        cid .comment = n % 2) ∧
    ((getComment (iterate (fun s => (CommentLikeRoute.POST s actorId cid).1) n st0) cid).map
        (fun c => c.statsLikes) =
      some ((likeRowCount (iterate (fun s => (CommentLikeRoute.POST s actorId cid).1) n st0)
        cid .comment : Nat) : Int)) ∧
    (likedState (iterate (fun s => (ProjectLikeRoute.POST s actorId pid).1) n st0)
        user.id pid .project = (n % 2 == 1)) ∧
    (likeRowCount (iterate (fun s => (ProjectLikeRoute.POST s actorId pid).1) n st0)
        pid .project = n % 2) ∧
    (getProject (iterate (fun s => (ProjectLikeRoute.POST s actorId pid).1) n st0) pid =
      some proj) := by
  rw [commentToggle_iterate st0 actorId cid user c0 hu hc hcleanC n,
    projectToggle_iterate st0 actorId pid user proj hu hp hcleanP n]
  have hfind0C := find?_like_none st0.likes user.id cid .comment hcleanC
  have hfind0P := find?_like_none st0.likes user.id pid .project hcleanP
  by_cases hn : n % 2 = 0
  · rw [if_pos hn, if_pos hn]
    have h1 : (n % 2 == 1) = false := by
      rw [hn]
      decide
    refine ⟨?_, ?_, ?_, ?_, ?_, hp⟩
    · rw [h1]
      simp [likedState, hfind0C]
    · rw [hn]
      simp [likeRowCount, hcleanC]
    · rw [hc]
      simp [likeRowCount, hcleanC, hcounter]
    · rw [h1]
      simp [likedState, hfind0P]
    · rw [hn]
      simp [likeRowCount, hcleanP]
  · rw [if_neg hn, if_neg hn]
    have hn1 : n % 2 = 1 := by omega
    have h1 : (n % 2 == 1) = true := by
      rw [hn1]
      decide
    have hrowsC : (likedStateC st0 user.id cid).likes.filter (fun l =>
        l.targetId == cid && l.targetType == TargetType.comment) =
        [likeRow user.id cid .comment] := by
      show (st0.likes ++ [likeRow user.id cid .comment]).filter _ = _
      rw [List.filter_append, hcleanC]
      simp [likeRow]
    have hrowsP : (likedStateP st0 user.id pid).likes.filter (fun l =>
        l.targetId == pid && l.targetType == TargetType.project) =
        [likeRow user.id pid .project] := by
      show (st0.likes ++ [likeRow user.id pid .project]).filter _ = _
      rw [List.filter_append, hcleanP]
      simp [likeRow]
    have hgetC : getComment (likedStateC st0 user.id cid) cid =
        some (if c0.id == cid then { c0 with statsLikes := c0.statsLikes + 1 } else c0) := by
      show (st0.comments.map (fun d =>
        if d.id == cid then { d with statsLikes := d.statsLikes + 1 } else d)).find?
          (fun d => d.id == cid) = _
      rw [comment_find?_map (fun d =>
          if d.id == cid then { d with statsLikes := d.statsLikes + 1 } else d)
        (fun d => ite_update_comment_id _ _ d rfl) st0.comments cid,
        show st0.comments.find? (fun d => d.id == cid) = some c0 from hc]
      rfl
    have hcid : (c0.id == cid) = true := by
      simp [getComment_id st0 cid c0 hc]
    refine ⟨?_, ?_, ?_, ?_, ?_, hp⟩
    · rw [h1]
      simp only [likedState, likedStateC]
      rw [List.find?_append, hfind0C]
      simp [likeRow]
    · rw [hn1]
      simp [likeRowCount, hrowsC]
    · rw [hgetC, hcid]
      simp only [likeRowCount, hrowsC, if_true]
      simp [hcounter]
    · rw [h1]
      simp only [likedState, likedStateP]
      rw [List.find?_append, hfind0P]
      simp [likeRow]
    · rw [hn1]
      simp [likeRowCount, hrowsP]

/-- C2 witness: three comment-like toggles and three project-like
toggles by user 1 on the listing fixture. -/
theorem claim2_witness :
    (likedState (iterate (fun s => (CommentLikeRoute.POST s 1 10).1) 3 stList)
        1 10 .comment = (3 % 2 == 1)) ∧
    (likeRowCount (iterate (fun s => (CommentLikeRoute.POST s 1 10).1) 3 stList)
        10 .comment = 3 % 2) ∧
    ((getComment (iterate (fun s => (CommentLikeRoute.POST s 1 10).1) 3 stList) 10).map
        (fun c => c.statsLikes) =
      some ((likeRowCount (iterate (fun s => (CommentLikeRoute.POST s 1 10).1) 3 stList)
        10 .comment : Nat) : Int)) ∧
    (likedState (iterate (fun s => (ProjectLikeRoute.POST s 1 100).1) 3 stList)
        1 100 .project = (3 % 2 == 1)) ∧
    (likeRowCount (iterate (fun s => (ProjectLikeRoute.POST s 1 100).1) 3 stList)
        100 .project = 3 % 2) ∧
    (getProject (iterate (fun s => (ProjectLikeRoute.POST s 1 100).1) 3 stList) 100 =
      some p100) :=
  claim2_theorem stList 1 10 100 3 u1 cA p100 (by decide) (by decide) (by decide)
    (by decide) (by decide) (by decide)

end CodeCircle
